import Mathlib

/-
Verification of the pagination-and-optimistic-update client logic of
ReactNativeNetworking (src/App.js, final variant; src/unnamed/part_000 is an
earlier variant with the same core functions).

The repository's own code — `retrievePosts`, `getNextPageParam`,
`validateForm`, `handleSubmit`, `manualDataSubmit`, the `useMutation`
callbacks — is embedded directly below, keeping names and shapes.  The
surrounding react-query machinery (initial fetch, `fetchNextPage`, per-key
request de-duplication, `refetchQueries`) is third-party library behaviour
not present in the source tree; where a property depends on it, the relevant
piece is modelled from the specification's description of that behaviour and
is marked `Modelled from the spec:` in its doc comment.
-/

namespace RNNet

/-- A post item as it appears in pages and in the optimistic local insert;
pending local items lack a server id (manualDataSubmit unshifts an object
with only title and body). -/
structure Item where
  id : Option Nat
  title : String
  body : String
deriving Repr, DecidableEq

/-- One fetch's worth of items, in server response order. -/
abbrev Page := List Item

/-- A failed network read: connection failure or non-success HTTP status
(axios rejects on both, landing in the catch block). -/
inductive FetchError where
  | networkFailure
  | badStatus (code : Nat)
deriving Repr, DecidableEq

/-- The network as an oracle: for each page token, the GET
`/posts?_limit=10&_page=token` either yields a page or fails. -/
abbrev Net := Nat → Except FetchError Page

/-- retrievePosts (src/App.js 35-46): awaits the GET for `pageParam` and
returns `response.data`; a rejection is caught, logged (and a component
error flag set), and the function falls off the end — i.e. it resolves
with `undefined`, here `none`.  It never rejects and never returns an
explicit error value. -/
def retrievePosts (net : Net) (pageParam : Nat) : Option Page :=
  match net pageParam with
  | Except.ok data => some data
  | Except.error _ => none

/-- getNextPageParam (src/App.js 66-72): given the last page and the array
of pages fetched so far, returns `pages.length + 1` while fewer than 10
pages exist, and `undefined` (none) once 10 pages are present.  Because the
query function resolves `undefined` on a failed fetch, an entry of the
pages array can itself be `undefined`, hence `Option Page`. -/
def getNextPageParam (_lastPage : Option Page) (pages : List (Option Page)) : Option Nat :=
  if pages.length < 10 then some (pages.length + 1) else none

/-- The infinite query's accumulated data: `data.pages`, in fetch order. -/
structure PaginatedResult where
  pages : List (Option Page)
deriving Repr, DecidableEq

/-- Outcome of one `fetchNextPage` call: either a fetch for a concrete
token was issued and its (possibly undefined) page appended, or
`getNextPageParam` returned `undefined` and nothing was fetched or
appended (NoMoreData). -/
inductive LoadNextResult where
  | fetched (token : Nat) (s : PaginatedResult)
  | noMoreData (s : PaginatedResult)
deriving Repr, DecidableEq

/-- Modelled from the spec: react-query's `fetchNextPage` (the `loadNext`
operation) asks `getNextPageParam` for the next token; if it returns
`undefined` the call is a no-op (NoMoreData), otherwise the query function
`retrievePosts` is invoked with that token and whatever it resolves with is
appended as a new entry of `pages`. -/
def fetchNextPage (net : Net) (s : PaginatedResult) : LoadNextResult :=
  match getNextPageParam (s.pages.getLast?.getD none) s.pages with
  | some token => LoadNextResult.fetched token ⟨s.pages ++ [retrievePosts net token]⟩
  | none => LoadNextResult.noMoreData s

/-- The state after a `fetchNextPage` call, whichever branch was taken. -/
def stateAfter : LoadNextResult → PaginatedResult
  | LoadNextResult.fetched _ s => s
  | LoadNextResult.noMoreData s => s

/-- The token a `fetchNextPage` call fetched, if it fetched at all. -/
def tokenFetched : LoadNextResult → Option Nat
  | LoadNextResult.fetched t _ => some t
  | LoadNextResult.noMoreData _ => none

/-- The state reached after `n` sequential `fetchNextPage` calls starting
from an empty PaginatedResult. -/
def iterLoadNext (net : Net) : Nat → PaginatedResult
  | 0 => ⟨[]⟩
  | n + 1 => stateAfter (fetchNextPage net (iterLoadNext net n))

/-- A network that always succeeds with an empty page, for concrete runs. -/
def constNet : Net := fun _ => Except.ok []

theorem iterLoadNext_length (net : Net) (n : Nat) :
    (iterLoadNext net n).pages.length = min n 10 := by
  induction n with
  | zero => rfl
  | succ n ih =>
    show (stateAfter (fetchNextPage net (iterLoadNext net n))).pages.length = _
    unfold fetchNextPage getNextPageParam
    by_cases h : (iterLoadNext net n).pages.length < 10
    · simp only [h, if_pos, stateAfter, List.length_append, List.length_cons,
        List.length_nil]
      omega
    · simp only [h, if_neg, stateAfter, not_false_eq_true]
      omega

/-- C1: starting from an empty PaginatedResult, for every N with
1 ≤ N ≤ 10 the Nth sequential loadNext call (all fetches succeeding)
computes and fetches page token exactly N, and the 11th call returns
NoMoreData on the unchanged state, fetching and appending nothing. -/
theorem loadNext_nth_fetches_token_n (net : Net) (N : Nat)
    (_hok : ∀ t, ∃ p, net t = Except.ok p) (h1 : 1 ≤ N) (h10 : N ≤ 10) :
    tokenFetched (fetchNextPage net (iterLoadNext net (N - 1))) = some N ∧
    fetchNextPage net (iterLoadNext net 10) =
      LoadNextResult.noMoreData (iterLoadNext net 10) := by
  constructor
  · have hlen : (iterLoadNext net (N - 1)).pages.length = N - 1 := by
      rw [iterLoadNext_length]; omega
    unfold fetchNextPage getNextPageParam
    rw [hlen]
    have hlt : N - 1 < 10 := by omega
    simp only [hlt, if_pos, tokenFetched]
    congr 1
    omega
  · have hlen : (iterLoadNext net 10).pages.length = 10 := by
      rw [iterLoadNext_length]; omega
    unfold fetchNextPage getNextPageParam
    rw [hlen]
    simp

theorem loadNext_nth_fetches_token_n_witness :
    (∀ t, ∃ p, constNet t = Except.ok p) ∧ 1 ≤ 3 ∧ 3 ≤ 10 ∧
    (tokenFetched (fetchNextPage constNet (iterLoadNext constNet (3 - 1))) = some 3 ∧
     fetchNextPage constNet (iterLoadNext constNet 10) =
       LoadNextResult.noMoreData (iterLoadNext constNet 10)) :=
  ⟨fun _ => ⟨[], rfl⟩, by decide, by decide,
   loadNext_nth_fetches_token_n constNet 3 (fun _ => ⟨[], rfl⟩) (by decide) (by decide)⟩

/-- Modelled from the spec: the initial load of the infinite query (the
`loadInitial` operation, also what a full reset reloads) calls the query
function with the default pageParam 1 and stores whatever it resolves with
as the sole page; since `retrievePosts` never rejects, the query always
"succeeds", even when the network failed. -/
def loadInitial (net : Net) : PaginatedResult :=
  ⟨[retrievePosts net 1]⟩

/-- Modelled from the spec: `queryClient.refetchQueries("posts")` refetches
every page the infinite query currently holds, page i with token i + 1,
replacing the data without changing the number of pages. -/
def refetchAll (net : Net) (s : PaginatedResult) : PaginatedResult :=
  ⟨(List.range s.pages.length).map fun i => retrievePosts net (i + 1)⟩

/-- The optimistic local insert of manualDataSubmit (src/App.js 100-105)
viewed as a total function on the accumulated pages:
`postData.pages[0].unshift({title, body})` prepends the pending item to the
first page when that page exists and is defined; when `pages[0]` is absent
or undefined the statement throws, no `setPostList` runs, and the state is
left unchanged. -/
def applyInsert (title body : String) (s : PaginatedResult) : PaginatedResult :=
  match s.pages with
  | some p :: rest => ⟨some (⟨none, title, body⟩ :: p) :: rest⟩
  | _ => s

/-- The states of the PaginationController reachable from the empty initial
PaginatedResult by any sequence of loadInitial, loadNext, and the two
effects of createItem (the optimistic insert and the reconciling refetch),
each step against an arbitrary network. -/
inductive Reachable : PaginatedResult → Prop where
  | init : Reachable ⟨[]⟩
  | loadInitialStep (net : Net) {s : PaginatedResult} :
      Reachable s → Reachable (loadInitial net)
  | loadNextStep (net : Net) {s : PaginatedResult} :
      Reachable s → Reachable (stateAfter (fetchNextPage net s))
  | insertStep (title body : String) {s : PaginatedResult} :
      Reachable s → Reachable (applyInsert title body s)
  | refetchStep (net : Net) {s : PaginatedResult} :
      Reachable s → Reachable (refetchAll net s)

/-- C2: in every reachable state of the controller, under any sequence of
loadInitial, loadNext and createItem operations, the number of pages in
PaginatedResult is at most 10. -/
theorem reachable_pages_le_ten (s : PaginatedResult) (h : Reachable s) :
    s.pages.length ≤ 10 := by
  induction h with
  | init => simp
  | loadInitialStep net _ _ => simp [loadInitial]
  | loadNextStep net _ ih =>
    rename_i t _
    unfold fetchNextPage getNextPageParam
    by_cases hlt : t.pages.length < 10
    · simp only [hlt, if_pos, stateAfter, List.length_append, List.length_cons,
        List.length_nil]
      omega
    · simp only [hlt, if_neg, stateAfter, not_false_eq_true]
      exact ih
  | insertStep title body _ ih =>
    rename_i t _
    unfold applyInsert
    match hp : t.pages with
    | some p :: rest => simp_all
    | [] => exact ih
    | none :: rest => simpa [hp] using ih
  | refetchStep net _ ih =>
    rename_i t _
    simpa [refetchAll] using ih

theorem reachable_pages_le_ten_witness :
    (applyInsert "T" "B" (loadInitial constNet)).pages.length ≤ 10 :=
  reachable_pages_le_ten _
    (Reachable.insertStep "T" "B" (Reachable.loadInitialStep constNet Reachable.init))

/-- The component's `postList` state (src/App.js 27): initialised to the
empty object `{}`, which has no `pages` field (none); once the query data
arrives, the effect hook copies `data` into it, so it then holds a pages
array. -/
structure PostList where
  pages : Option (List (Option Page))
deriving Repr, DecidableEq

/-- The initial `postList` state: `useState({})`. -/
def initialPostList : PostList := ⟨none⟩

/-- manualDataSubmit (src/App.js 100-105): runs
`postData.pages[0].unshift({title, body})` on the captured post list, then
`setPostList(postData)`.  Returns the updated list, or none when the
statement throws: `postData.pages` absent (the initial `{}` state, so
`.pages[0]` faults), `pages` empty (`pages[0]` is undefined), or `pages[0]`
itself undefined (a swallowed failed fetch), so `.unshift` faults. -/
def manualDataSubmit (title body : String) (postList : PostList) : Option PostList :=
  match postList.pages with
  | some (some p :: rest) => some ⟨some (some (⟨none, title, body⟩ :: p) :: rest)⟩
  | _ => none

/-- validateForm (src/App.js 91-98): `error` is set to the message when
title or body is falsy (the empty string), `setFieldsError(error)` records
it, and `!error` is returned — true exactly when no error.  Result:
(returned boolean, fieldsError written). -/
def validateForm (title body : String) : Bool × String :=
  if title = "" ∨ body = "" then (false, "Title and Body must be filled") else (true, "")

/-- The outward effects a submission issues: the POST of the mutation
(`addPostMutate({title, body})`) and the `setTimeout`-scheduled local
insert (`setTimeout(() => manualDataSubmit(), 1000)`), both closing over
the render's current title and body. -/
inductive Effect where
  | sendCreate (title body : String)
  | scheduledInsert (title body : String)
deriving Repr, DecidableEq

/-- The component state handleSubmit touches. -/
structure FormState where
  postList : PostList
  title : String
  body : String
  fieldsError : String
  customLoading : Bool
deriving Repr, DecidableEq

/-- handleSubmit (src/App.js 107-119): when validateForm passes, it clears
fieldsError, issues the create mutation with the current title and body,
clears the fields, sets customLoading, and schedules manualDataSubmit one
second later; when validation fails, only fieldsError is written and no
effect is issued.  Returns the state immediately after the call returns,
paired with the effects issued. -/
def handleSubmit (s : FormState) : FormState × List Effect :=
  let v := validateForm s.title s.body
  if v.1 then
    ({ s with fieldsError := "", title := "", body := "", customLoading := true },
      [Effect.sendCreate s.title s.body, Effect.scheduledInsert s.title s.body])
  else
    ({ s with fieldsError := v.2 }, [])

/-- The first item of the first page of a post list, when there is one. -/
def firstItemOfFirstPage (pl : PostList) : Option Item :=
  match pl.pages with
  | some (some (it :: _) :: _) => some it
  | _ => none

/-- C6: submitting with an empty title or an empty body issues no effect at
all — in particular no network call — and leaves the post list unchanged
(only the fieldsError message is written). -/
theorem createItem_empty_field_rejected (s : FormState)
    (h : s.title = "" ∨ s.body = "") :
    (handleSubmit s).2 = [] ∧ (handleSubmit s).1.postList = s.postList := by
  unfold handleSubmit validateForm
  rw [if_pos h]
  simp

theorem createItem_empty_field_rejected_witness :
    ((handleSubmit ⟨⟨none⟩, "", "x", "", false⟩).2 = [] ∧
      (handleSubmit ⟨⟨none⟩, "", "x", "", false⟩).1.postList = ⟨none⟩) ∧
    ((handleSubmit ⟨⟨none⟩, "x", "", "", false⟩).2 = [] ∧
      (handleSubmit ⟨⟨none⟩, "x", "", "", false⟩).1.postList = ⟨none⟩) :=
  ⟨createItem_empty_field_rejected ⟨⟨none⟩, "", "x", "", false⟩ (Or.inl rfl),
   createItem_empty_field_rejected ⟨⟨none⟩, "x", "", "", false⟩ (Or.inr rfl)⟩

/-- A concrete pre-submission state: one fetched page whose first item is
an old post, with "T" and "B" typed into the form. -/
def cexSubmitState : FormState :=
  ⟨⟨some [some [⟨some 1, "old title", "old body"⟩]]⟩, "T", "B", "", false⟩

/-- C3 counterexample: immediately after `handleSubmit` returns on
`cexSubmitState`, the first item of the first page is still the old post,
not an item with title "T" and body "B" — the local insert only happens
when the one-second `setTimeout` callback later fires. -/
theorem createItem_not_immediately_visible :
    firstItemOfFirstPage (handleSubmit cexSubmitState).1.postList =
      some ⟨some 1, "old title", "old body"⟩ ∧
    ¬ ∃ it, firstItemOfFirstPage (handleSubmit cexSubmitState).1.postList = some it ∧
        it.title = "T" ∧ it.body = "B" := by
  constructor
  · rfl
  · rintro ⟨it, hit, hTeq, _⟩
    have h0 : firstItemOfFirstPage (handleSubmit cexSubmitState).1.postList =
        some ⟨some 1, "old title", "old body"⟩ := rfl
    rw [h0] at hit
    injection hit with h
    rw [← h] at hTeq
    exact absurd hTeq (by decide)

/-- C3 amended: a valid submission schedules the local insert, and when
that delayed callback runs (before any reconciling refetch replaces the
list), the first page's first item is the pending item with the submitted
title and body. -/
theorem createItem_optimistic_after_delay (s : FormState) (T B : String)
    (p : Page) (rest : List (Option Page))
    (hT : s.title = T) (hB : s.body = B) (hTne : T ≠ "") (hBne : B ≠ "")
    (hpages : s.postList.pages = some (some p :: rest)) :
    Effect.scheduledInsert T B ∈ (handleSubmit s).2 ∧
    ∃ pl, manualDataSubmit T B (handleSubmit s).1.postList = some pl ∧
      firstItemOfFirstPage pl = some ⟨none, T, B⟩ := by
  have hcond : ¬ (T = "" ∨ B = "") := by
    push_neg
    exact ⟨hTne, hBne⟩
  have hv : validateForm s.title s.body = (true, "") := by
    rw [hT, hB]
    unfold validateForm
    rw [if_neg hcond]
  have hstep : handleSubmit s =
      ({ s with fieldsError := "", title := "", body := "", customLoading := true },
        [Effect.sendCreate s.title s.body, Effect.scheduledInsert s.title s.body]) := by
    unfold handleSubmit
    rw [hv]
    rfl
  constructor
  · rw [hstep]
    simp [hT, hB]
  · refine ⟨⟨some (some (⟨none, T, B⟩ :: p) :: rest)⟩, ?_, rfl⟩
    have h1 : (handleSubmit s).1.postList = s.postList := by rw [hstep]
    rw [h1]
    unfold manualDataSubmit
    rw [hpages]

theorem createItem_optimistic_after_delay_witness :
    Effect.scheduledInsert "T" "B" ∈ (handleSubmit cexSubmitState).2 ∧
    ∃ pl, manualDataSubmit "T" "B" (handleSubmit cexSubmitState).1.postList = some pl ∧
      firstItemOfFirstPage pl = some ⟨none, "T", "B"⟩ :=
  createItem_optimistic_after_delay cexSubmitState "T" "B"
    [⟨some 1, "old title", "old body"⟩] [] rfl rfl (by decide) (by decide) rfl

/-- C10: when the delayed insert runs while `postList` is still the empty
initial object (no successful initial fetch has populated pages), the
operation faults instead of inserting or returning an error value. -/
theorem manualDataSubmit_initial_state_faults (title body : String) :
    manualDataSubmit title body initialPostList = none := rfl

/-- A network on which every GET fails. -/
def failNet : Net := fun _ => Except.error FetchError.networkFailure

/-- A network on which token 2 fails and every other token succeeds. -/
def flakyNet : Net := fun t =>
  if t = 2 then Except.error FetchError.networkFailure else Except.ok []

/-- C4 (as the code actually behaves): whenever the network call for a page
token fails, retrievePosts catches the rejection and resolves `undefined`
(none) — it hands its caller a missing page value, never an explicit
FetchError result. -/
theorem retrievePosts_failure_yields_undefined (net : Net) (t : Nat)
    (e : FetchError) (hfail : net t = Except.error e) :
    retrievePosts net t = none := by
  unfold retrievePosts
  rw [hfail]

theorem retrievePosts_failure_yields_undefined_witness :
    failNet 1 = Except.error FetchError.networkFailure ∧
    retrievePosts failNet 1 = none :=
  ⟨rfl, retrievePosts_failure_yields_undefined failNet 1 FetchError.networkFailure rfl⟩

/-- C7 (as the code actually behaves): when the fetch for token 1 fails,
the initial load does not leave PaginatedResult empty — the swallowed
failure resolves `undefined` and an undefined page is stored, so the query
holds one undefined page and no FetchError reaches the result; a later
initial load against a working network does recover to a single defined
page. -/
theorem loadInitial_failure_stores_undefined_page (net net' : Net)
    (e : FetchError) (p : Page)
    (hfail : net 1 = Except.error e) (hok : net' 1 = Except.ok p) :
    (loadInitial net).pages = [none] ∧ (loadInitial net).pages ≠ [] ∧
    (loadInitial net').pages = [some p] := by
  refine ⟨?_, ?_, ?_⟩
  · unfold loadInitial retrievePosts
    rw [hfail]
  · unfold loadInitial
    simp
  · unfold loadInitial retrievePosts
    rw [hok]

theorem loadInitial_failure_stores_undefined_page_witness :
    failNet 1 = Except.error FetchError.networkFailure ∧
    constNet 1 = Except.ok [] ∧
    ((loadInitial failNet).pages = [none] ∧ (loadInitial failNet).pages ≠ [] ∧
     (loadInitial constNet).pages = [some []]) :=
  ⟨rfl, rfl,
   loadInitial_failure_stores_undefined_page failNet constNet
     FetchError.networkFailure [] rfl rfl⟩

/-- C8 (as the code actually behaves): the token starts at 1, but a failed
fetch still advances it and consumes a page slot — after a successful fetch
of token 1 and a failed fetch of token 2, the undefined page is stored
(2 slots used) and the next computed token is 3, not 2. -/
theorem failed_fetch_advances_token :
    tokenFetched (fetchNextPage flakyNet (iterLoadNext flakyNet 0)) = some 1 ∧
    tokenFetched (fetchNextPage flakyNet (iterLoadNext flakyNet 1)) = some 2 ∧
    (iterLoadNext flakyNet 2).pages = [some [], none] ∧
    tokenFetched (fetchNextPage flakyNet (iterLoadNext flakyNet 2)) = some 3 := by
  refine ⟨rfl, rfl, rfl, rfl⟩

/-- Modelled from the spec: the per-query-key request state react-query
keeps — the accumulated data plus the token of the outstanding next-page
request, if one is in flight. -/
structure InFlightState where
  result : PaginatedResult
  inFlight : Option Nat
deriving Repr, DecidableEq

/-- Modelled from the spec: issuing a `loadNext` call.  While a next-page
fetch is already outstanding the call is de-duplicated by query key and no
second fetch goes out; otherwise getNextPageParam computes the next token
and, when there is one, a single fetch for it is issued.  The boolean
records whether this call issued a fetch. -/
def issueLoadNext (s : InFlightState) : InFlightState × Bool :=
  match s.inFlight with
  | some _ => (s, false)
  | none =>
    match getNextPageParam (s.result.pages.getLast?.getD none) s.result.pages with
    | some t => (⟨s.result, some t⟩, true)
    | none => (s, false)

/-- Modelled from the spec: the outstanding next-page fetch resolves — its
page is appended and the in-flight marker cleared. -/
def resolveLoadNext (net : Net) (s : InFlightState) : InFlightState :=
  match s.inFlight with
  | some t => ⟨⟨s.result.pages ++ [retrievePosts net t]⟩, none⟩
  | none => s

/-- C5: from any idle state with room for another page, a second loadNext
issued while the first is still outstanding issues no fetch and changes
nothing, and when the single outstanding fetch resolves exactly one page
has been appended. -/
theorem overlapping_loadNext_single_fetch (net : Net) (s : InFlightState)
    (hidle : s.inFlight = none) (hroom : s.result.pages.length < 10) :
    (issueLoadNext s).2 = true ∧
    (issueLoadNext (issueLoadNext s).1).2 = false ∧
    (issueLoadNext (issueLoadNext s).1).1 = (issueLoadNext s).1 ∧
    (resolveLoadNext net (issueLoadNext (issueLoadNext s).1).1).result.pages.length =
      s.result.pages.length + 1 := by
  have h1 : issueLoadNext s = (⟨s.result, some (s.result.pages.length + 1)⟩, true) := by
    unfold issueLoadNext getNextPageParam
    rw [hidle]
    simp [hroom]
  have h2 : issueLoadNext ⟨s.result, some (s.result.pages.length + 1)⟩ =
      (⟨s.result, some (s.result.pages.length + 1)⟩, false) := rfl
  rw [h1, h2]
  refine ⟨rfl, rfl, rfl, ?_⟩
  simp [resolveLoadNext]

theorem overlapping_loadNext_single_fetch_witness :
    (⟨⟨[some []]⟩, none⟩ : InFlightState).inFlight = none ∧
    (⟨⟨[some []]⟩, none⟩ : InFlightState).result.pages.length < 10 ∧
    ((issueLoadNext ⟨⟨[some []]⟩, none⟩).2 = true ∧
     (issueLoadNext (issueLoadNext ⟨⟨[some []]⟩, none⟩).1).2 = false ∧
     (issueLoadNext (issueLoadNext ⟨⟨[some []]⟩, none⟩).1).1 =
       (issueLoadNext ⟨⟨[some []]⟩, none⟩).1 ∧
     (resolveLoadNext constNet
         (issueLoadNext (issueLoadNext ⟨⟨[some []]⟩, none⟩).1).1).result.pages.length =
       (⟨⟨[some []]⟩, none⟩ : InFlightState).result.pages.length + 1) :=
  ⟨rfl, by decide,
   overlapping_loadNext_single_fetch constNet ⟨⟨[some []]⟩, none⟩ rfl (by decide)⟩

/-- The create endpoint as an oracle: for a title and body, the POST either
yields the server's item or fails. -/
abbrev CreateNet := String → String → Except FetchError Item

/-- addPosts (src/App.js 48-59): awaits the POST of the fields data and
returns `response.data`; a rejection is caught, logged (and an error flag
set), and the function resolves `undefined` (none). -/
def addPosts (cnet : CreateNet) (title body : String) : Option Item :=
  match cnet title body with
  | Except.ok it => some it
  | Except.error _ => none

/-- The effect the settled create mutation produces. -/
inductive MutationEffect where
  | refetchPosts
deriving Repr, DecidableEq

/-- The useMutation wiring (src/App.js 83-89): when the addPosts promise
resolves, the onSuccess callback — `() => queryClient.refetchQueries("posts")`,
which ignores the resolved value — fires and refetches the whole "posts"
infinite query.  Since addPosts never rejects, every settled create
mutation reaches onSuccess. -/
def resolveCreate (_result : Option Item) : List MutationEffect :=
  [MutationEffect.refetchPosts]

/-- C9: a valid submission issues the create mutation, and when that
mutation settles successfully the full re-fetch of the paginated posts
query is triggered to reconcile local state with the server. -/
theorem createItem_triggers_refetch (s : FormState) (cnet : CreateNet) (it : Item)
    (hT : s.title ≠ "") (hB : s.body ≠ "")
    (hok : cnet s.title s.body = Except.ok it) :
    Effect.sendCreate s.title s.body ∈ (handleSubmit s).2 ∧
    addPosts cnet s.title s.body = some it ∧
    MutationEffect.refetchPosts ∈ resolveCreate (addPosts cnet s.title s.body) := by
  have hcond : ¬ (s.title = "" ∨ s.body = "") := by
    push_neg
    exact ⟨hT, hB⟩
  refine ⟨?_, ?_, ?_⟩
  · unfold handleSubmit validateForm
    rw [if_neg hcond]
    simp
  · unfold addPosts
    rw [hok]
  · unfold resolveCreate
    simp

/-- A create endpoint that echoes the fields with server id 101. -/
def echoCreateNet : CreateNet := fun title body => Except.ok ⟨some 101, title, body⟩

theorem createItem_triggers_refetch_witness :
    ("T" : String) ≠ "" ∧ ("B" : String) ≠ "" ∧
    echoCreateNet "T" "B" = Except.ok ⟨some 101, "T", "B"⟩ ∧
    (Effect.sendCreate "T" "B" ∈ (handleSubmit ⟨⟨none⟩, "T", "B", "", false⟩).2 ∧
     addPosts echoCreateNet "T" "B" = some ⟨some 101, "T", "B"⟩ ∧
     MutationEffect.refetchPosts ∈ resolveCreate (addPosts echoCreateNet "T" "B")) :=
  ⟨by decide, by decide, rfl,
   createItem_triggers_refetch ⟨⟨none⟩, "T", "B", "", false⟩ echoCreateNet
     ⟨some 101, "T", "B"⟩ (by decide) (by decide) rfl⟩

end RNNet
